import Mathlib

/-!
Verification development for the farm-management dashboard
(`src/data/models.py`, `src/data/database.py`, `src/modules/mod1.py`,
`src/modules/mod2.py`, `src/modules/mod3.py`).

The repository layer issues SQL statements through Database.execute_query,
Database.execute_insert and Database.execute_update
(`src/data/database.py:82-141`); each of those calls opens its own sqlite
connection via the context manager get_connection
(`src/data/database.py:26-46`), which commits on success and rolls back on an
exception, connection by connection.  We embed each table as a Lean list of
row structures, each repository operation as a pure function on those lists,
and each single SQL statement as one atomic step.  Quantities that sqlite
stores as INTEGER are modelled as Int, REAL amounts as Rat, dates as Int day
numbers, times as the stored "HH:MM:SS" strings.

The database triggers referenced by the code (dispatch effects, price
deactivation) live in data/schema.sql, which database.py loads at startup
(`src/data/database.py:69-78`) but which is not among the sources; those
effects are modelled from the spec and marked as such in their doc comments.
-/

/-- Per-category counters for the six egg size classes (C, B, A, AA, AAA,
Jumbo), mirroring the column sextuples tipo_c..tipo_jumbo and
canastillas_c..canastillas_jumbo of the schema. -/
structure Cats where
  c : Int
  b : Int
  a : Int
  aa : Int
  aaa : Int
  jumbo : Int
deriving DecidableEq, Repr

def Cats.add (x y : Cats) : Cats :=
  ⟨x.c + y.c, x.b + y.b, x.a + y.a, x.aa + y.aa, x.aaa + y.aaa, x.jumbo + y.jumbo⟩

def Cats.neg (x : Cats) : Cats :=
  ⟨-x.c, -x.b, -x.a, -x.aa, -x.aaa, -x.jumbo⟩

def Cats.sub (x y : Cats) : Cats :=
  ⟨x.c - y.c, x.b - y.b, x.a - y.a, x.aa - y.aa, x.aaa - y.aaa, x.jumbo - y.jumbo⟩

def Cats.scale (k : Int) (x : Cats) : Cats :=
  ⟨k * x.c, k * x.b, k * x.a, k * x.aa, k * x.aaa, k * x.jumbo⟩

def Cats.total (x : Cats) : Int :=
  x.c + x.b + x.a + x.aa + x.aaa + x.jumbo

/-- Row of ajustes_stock_huevos as inserted by
StockRepository.registrar_ajuste_huevos (`src/data/models.py:156-161`); the
fecha/hora columns are filled by sqlite from the clock and are omitted. -/
structure AjusteRow where
  tipo_ajuste : String
  tipo_c : Int
  tipo_b : Int
  tipo_a : Int
  tipo_aa : Int
  tipo_aaa : Int
  tipo_jumbo : Int
  motivo : Option String
deriving DecidableEq, Repr

/-- The part of the database touched by the egg-stock adjustment path:
the single stock_huevos row (id = 1) and the ajustes_stock_huevos table. -/
structure HuevosState where
  stock : Cats
  ajustes : List AjusteRow
deriving DecidableEq, Repr

/-- Outcome of a repository operation built from several SQL statements.
Each statement runs on its own connection (Database.get_connection,
`src/data/database.py:26-46`), committing on success and rolling back on
failure; when a later statement raises, the earlier statements stay
committed.  err carries the database state left behind when the exception
propagates out of the operation. -/
inductive TxResult (σ : Type) where
  | ok : σ → Nat → TxResult σ
  | err : σ → TxResult σ
deriving DecidableEq, Repr

/-- StockRepository.ajustar_stock_manual (`src/data/models.py:83-102`):
one UPDATE adding the given signed deltas to the stock_huevos row. -/
def ajustar_stock_manual (s : HuevosState) (d : Cats) : HuevosState :=
  { s with stock := s.stock.add d }

/-- StockRepository.registrar_ajuste_huevos (`src/data/models.py:142-161`):
first ajustar_stock_manual applies the deltas (its own transaction,
committed on success), then a second statement inserts the audit row into
ajustes_stock_huevos.  okUpd and okIns say whether the respective sqlite
statement succeeds; a failing statement rolls back only itself. -/
def registrar_ajuste_huevos (s : HuevosState) (tipo_ajuste : String) (d : Cats)
    (motivo : Option String) (okUpd okIns : Bool) : TxResult HuevosState :=
  if okUpd then
    let s1 := ajustar_stock_manual s d
    if okIns then
      TxResult.ok
        { s1 with ajustes := s1.ajustes ++
            [⟨tipo_ajuste, d.c, d.b, d.a, d.aa, d.aaa, d.jumbo, motivo⟩] }
        (s1.ajustes.length + 1)
    else TxResult.err s1
  else TxResult.err s

/-- Stock-adjustment button handler of StockModule._render_stock_huevos
(`src/modules/mod2.py:161-188`): when the entered total is nonzero or the
kind is correccion, mermas are negated before being handed to
registrar_ajuste_huevos; otherwise nothing is written.  A failure inside the
repository call is caught and displayed, leaving whatever had committed. -/
def aplicar_ajuste_stock_huevos (s : HuevosState) (tipo_ajuste : String)
    (ajustes : Cats) (motivo : Option String) (okUpd okIns : Bool) : HuevosState :=
  if ajustes.total ≠ 0 ∨ tipo_ajuste = "correccion" then
    let aplicar := if tipo_ajuste = "merma" then ajustes.neg else ajustes
    match registrar_ajuste_huevos s tipo_ajuste aplicar motivo okUpd okIns with
    | TxResult.ok s2 _ => s2
    | TxResult.err s2 => s2
  else s

/-- Row of stock_insumos (one per supply item). -/
structure StockInsumoRow where
  insumo_id : Nat
  cantidad_actual : Rat
  stock_minimo : Rat
deriving DecidableEq, Repr

/-- Row of movimientos_insumos as inserted by
StockRepository.registrar_consumo_insumo (`src/data/models.py:186-191`). -/
structure MovInsumoRow where
  insumo_id : Nat
  tipo_movimiento : String
  cantidad : Rat
  motivo : Option String
deriving DecidableEq, Repr

/-- The part of the database touched by the supply-stock paths. -/
structure InsumosState where
  stock : List StockInsumoRow
  movimientos : List MovInsumoRow
deriving DecidableEq, Repr

/-- The UPDATE of StockRepository.registrar_consumo_insumo
(`src/data/models.py:178-183`): subtract cantidad from the matching
stock_insumos row. -/
def descontarInsumo (rows : List StockInsumoRow) (insumo_id : Nat)
    (cantidad : Rat) : List StockInsumoRow :=
  rows.map (fun r =>
    if r.insumo_id = insumo_id then
      { r with cantidad_actual := r.cantidad_actual - cantidad }
    else r)

/-- StockRepository.registrar_consumo_insumo (`src/data/models.py:172-191`):
one UPDATE decrementing stock_insumos, then one INSERT of a salida row into
movimientos_insumos, each on its own connection. -/
def registrar_consumo_insumo (s : InsumosState) (insumo_id : Nat)
    (cantidad : Rat) (motivo : Option String) (okUpd okIns : Bool) :
    TxResult InsumosState :=
  if okUpd then
    let s1 := { s with stock := descontarInsumo s.stock insumo_id cantidad }
    if okIns then
      TxResult.ok
        { s1 with movimientos := s1.movimientos ++
            [⟨insumo_id, "salida", cantidad, motivo⟩] }
        (s1.movimientos.length + 1)
    else TxResult.err s1
  else TxResult.err s

/-- StockRepository.ajustar_stock_insumo (`src/data/models.py:208-216`):
a single UPDATE setting cantidad_actual of the matching stock_insumos row to
nueva_cantidad.  The motivo argument is accepted but never used by the SQL,
and no movimientos_insumos row is written. -/
def ajustar_stock_insumo (s : InsumosState) (insumo_id : Nat)
    (nueva_cantidad : Rat) (motivo : String) : InsumosState :=
  { s with stock := s.stock.map (fun r =>
      if r.insumo_id = insumo_id then
        { r with cantidad_actual := nueva_cantidad }
      else r) }

/-- Concrete starting state used by witnesses on the egg-stock path. -/
def huevosEjemplo : HuevosState :=
  { stock := ⟨20, 10, 10, 10, 10, 10⟩, ajustes := [] }

/-- Concrete starting state used by witnesses on the supply-stock path. -/
def insumosEjemplo : InsumosState :=
  { stock := [⟨1, 40, 5⟩, ⟨2, 7, 2⟩],
    movimientos := [⟨2, "salida", 1, none⟩] }

/-- Order lifecycle states stored in pedidos.estado. -/
inductive Estado where
  | pendiente
  | completado
  | cancelado
deriving DecidableEq, Repr

/-- Row of clientes (ClientesRepository, `src/data/models.py:228-271`). -/
structure Cliente where
  id : Nat
  nombre : String
  contacto : Option String
  activo : Bool
deriving DecidableEq, Repr

/-- Row of pedidos; the basket counts canastillas_c..canastillas_jumbo are
gathered in one Cats value. -/
structure Pedido where
  id : Nat
  cliente_id : Nat
  fecha : Int
  hora : String
  canastillas : Cats
  precio_total : Rat
  estado : Estado
  observaciones : Option String
deriving DecidableEq, Repr

/-- Row of despachos as inserted by PedidosRepository.despachar_pedido
(`src/data/models.py:418-427`). -/
structure Despacho where
  pedido_id : Nat
  fecha : Int
  hora : String
  canastillas : Cats
  observaciones : Option String
deriving DecidableEq, Repr

/-- Movement kinds of movimientos_financieros. -/
inductive TipoMov where
  | ingreso
  | egreso
deriving DecidableEq, Repr

/-- Row of movimientos_financieros (the financial ledger read by
ReportesRepository). -/
structure MovFin where
  fecha : Int
  tipo : TipoMov
  categoria : String
  monto : Rat
deriving DecidableEq, Repr

/-- Typed errors of the spec taxonomy (section 7) used by the spec-modelled
trigger effects. -/
inductive RepoError where
  | stateError
  | referentialError
deriving DecidableEq, Repr

/-- Database slice touched by the order and dispatch path: pedidos, the
stock_huevos counters, movimientos_financieros and despachos. -/
structure VentasState where
  pedidos : List Pedido
  stock : Cats
  movimientos : List MovFin
  despachos : List Despacho
deriving DecidableEq, Repr

/-- PedidosRepository.cancelar_pedido (`src/data/models.py:402-405`): a
single UPDATE pedidos SET estado = cancelado WHERE id = ?.  Unlike
actualizar_pedido (`src/data/models.py:386-400`), its WHERE clause has no
estado = pendiente condition. -/
def cancelar_pedido (pedidos : List Pedido) (pedido_id : Nat) : List Pedido :=
  pedidos.map (fun p =>
    if p.id = pedido_id then { p with estado := Estado.cancelado } else p)

/-- Modelled from the spec: PedidosRepository.despachar_pedido
(`src/data/models.py:407-427`) only inserts the despachos row; the listed
consistency effects are performed by the trigger in data/schema.sql, which
database.py loads at startup but which is not among the sources.  Per spec
sections 4.1 and 4.2: the dispatch fails with StateError when the referenced
order is not pending (with a referential error when it does not exist);
otherwise, within the transaction of the insert, EggStock is decremented by the
dispatched basket counts times 30 per category, the referenced order has its
estado set to completado, and an income FinancialMovement equal to the
total price of the order is recorded. -/
def despachar_pedido (s : VentasState) (pedido_id : Nat) (fecha : Int)
    (hora : String) (can : Cats) (observaciones : Option String) :
    Except RepoError VentasState :=
  match s.pedidos.find? (fun p => p.id == pedido_id) with
  | none => Except.error RepoError.referentialError
  | some p =>
    if p.estado = Estado.pendiente then
      Except.ok
        { pedidos := s.pedidos.map (fun q =>
            if q.id = pedido_id then { q with estado := Estado.completado }
            else q),
          stock := s.stock.sub (can.scale 30),
          movimientos := s.movimientos ++
            [⟨fecha, TipoMov.ingreso, "Venta de huevos", p.precio_total⟩],
          despachos := s.despachos ++
            [⟨pedido_id, fecha, hora, can, observaciones⟩] }
    else Except.error RepoError.stateError

/-- ClientesRepository.obtener_cliente (`src/data/models.py:244-248`):
SELECT by id, first row or the empty dict (modelled as none). -/
def obtener_cliente (clientes : List Cliente) (cliente_id : Nat) :
    Option Cliente :=
  (clientes.filter (fun c => c.id == cliente_id)).head?

/-- Shape of the rows produced by the pedidos-with-cliente JOIN of
PedidosRepository.obtener_pedido (`src/data/models.py:372-384`). -/
structure PedidoConCliente where
  pedido : Pedido
  cliente_nombre : String
  cliente_contacto : Option String
deriving DecidableEq, Repr

/-- PedidosRepository.obtener_pedido (`src/data/models.py:372-384`):
SELECT joining pedidos with clientes, filtered on the pedido id; first row
or the empty dict (modelled as none). -/
def obtener_pedido (pedidos : List Pedido) (clientes : List Cliente)
    (pedido_id : Nat) : Option PedidoConCliente :=
  ((pedidos.filter (fun p => p.id == pedido_id)).flatMap (fun p =>
      (clientes.filter (fun c => c.id == p.cliente_id)).map
        (fun c => ⟨p, c.nombre, c.contacto⟩))).head?

/-- Row of the stock_huevos table as read back by queries (the table holds a
single row with id = 1). -/
structure StockHuevosRow where
  id : Nat
  cantidades : Cats
deriving DecidableEq, Repr

/-- StockRepository.obtener_stock_actual (`src/data/models.py:77-81`):
SELECT * FROM stock_huevos WHERE id = 1; first row or the empty dict
(modelled as none). -/
def obtener_stock_actual (rows : List StockHuevosRow) :
    Option StockHuevosRow :=
  (rows.filter (fun r => r.id == 1)).head?

/-- Row of precios_huevos. -/
structure Precio where
  fecha_vigencia : Int
  precio_c : Rat
  precio_b : Rat
  precio_a : Rat
  precio_aa : Rat
  precio_aaa : Rat
  precio_jumbo : Rat
  activo : Bool
deriving DecidableEq, Repr

/-- PreciosRepository.obtener_precio_actual (`src/data/models.py:308-312`):
SELECT * FROM precios_huevos WHERE activo = 1; first row or the empty dict
(modelled as none). -/
def obtener_precio_actual (precios : List Precio) : Option Precio :=
  (precios.filter (fun r => r.activo)).head?

/-- Column values handed to PreciosRepository.crear_nuevo_precio
(`src/data/models.py:314-327`). -/
structure PrecioArgs where
  fecha_vigencia : Int
  precio_c : Rat
  precio_b : Rat
  precio_a : Rat
  precio_aa : Rat
  precio_aaa : Rat
  precio_jumbo : Rat
deriving DecidableEq, Repr

/-- Modelled from the spec: PreciosRepository.crear_nuevo_precio
(`src/data/models.py:314-327`) inserts the new row with activo = 1 and its
docstring defers deactivation of the previous price to a trigger of
data/schema.sql, which is not among the sources.  Per spec section 4.1, on
insert of a new PriceSchedule row all other rows are set active=false before
the new row is marked active=true. -/
def crear_nuevo_precio (precios : List Precio) (args : PrecioArgs) :
    List Precio :=
  precios.map (fun r => { r with activo := false }) ++
    [⟨args.fecha_vigencia, args.precio_c, args.precio_b, args.precio_a,
      args.precio_aa, args.precio_aaa, args.precio_jumbo, true⟩]

/-- Row of poblacion_gallinas. -/
structure Poblacion where
  fecha : Int
  hora : String
  cantidad_gallinas : Int
  descartes : Int
  observaciones : Option String
deriving DecidableEq, Repr

/-- Result of GallinasRepository.obtener_poblacion_actual: either the
latest poblacion_gallinas row, or the literal default dict returned when the
table is empty. -/
inductive PoblacionActual where
  | fila : Poblacion → PoblacionActual
  | sinRegistros : PoblacionActual
deriving DecidableEq, Repr

/-- The cantidad_gallinas entry of the returned dict; the default dict of
`src/data/models.py:728` carries 0. -/
def PoblacionActual.cantidad_gallinas : PoblacionActual → Int
  | PoblacionActual.fila r => r.cantidad_gallinas
  | PoblacionActual.sinRegistros => 0

/-- Strict ordering on poblacion_gallinas rows matching ORDER BY fecha DESC,
hora DESC (hora is a TEXT column compared lexicographically). -/
def posteriorA (r m : Poblacion) : Bool :=
  decide (m.fecha < r.fecha) ||
    (m.fecha == r.fecha && decide (m.hora < r.hora))

/-- The row selected by ORDER BY fecha DESC, hora DESC LIMIT 1: a maximum
of the table under posteriorA. -/
def ultimaPoblacion (rows : List Poblacion) : Option Poblacion :=
  rows.foldl (fun acc r =>
    match acc with
    | none => some r
    | some m => if posteriorA r m then some r else some m) none

/-- GallinasRepository.obtener_poblacion_actual
(`src/data/models.py:720-728`): the latest row, or the default dict with
cantidad_gallinas 0 when there is no row. -/
def obtener_poblacion_actual (rows : List Poblacion) : PoblacionActual :=
  match ultimaPoblacion rows with
  | some r => PoblacionActual.fila r
  | none => PoblacionActual.sinRegistros

/-- The sqlite predicate fecha BETWEEN ? AND ? used by the period
queries. -/
def enRango (fecha_inicio fecha_fin f : Int) : Bool :=
  decide (fecha_inicio ≤ f) && decide (f ≤ fecha_fin)

/-- The single aggregate row produced by the balance query of
ReportesRepository.obtener_balance_periodo (`src/data/models.py:546-553`);
each SUM is NULL (none) when no row matched the WHERE clause. -/
structure BalanceRow where
  total_ingresos : Option Rat
  total_egresos : Option Rat
  balance : Option Rat
deriving DecidableEq, Repr

/-- ReportesRepository.obtener_balance_periodo
(`src/data/models.py:544-555`): one aggregate SELECT over
movimientos_financieros restricted to the period; every SUM(CASE ...) is
NULL exactly when the WHERE clause matched no row, and the row is returned
as-is (result[0]). -/
def obtener_balance_periodo (movs : List MovFin)
    (fecha_inicio fecha_fin : Int) : BalanceRow :=
  let m := movs.filter (fun r => enRango fecha_inicio fecha_fin r.fecha)
  if m.isEmpty then ⟨none, none, none⟩
  else
    ⟨some ((m.map (fun r =>
        if r.tipo = TipoMov.ingreso then r.monto else 0)).sum),
     some ((m.map (fun r =>
        if r.tipo = TipoMov.egreso then r.monto else 0)).sum),
     some ((m.map (fun r =>
        if r.tipo = TipoMov.ingreso then r.monto else -r.monto)).sum)⟩

/-- Total income of a period following the words of the spec: the sum of
FinancialMovement amounts with type income inside the range. -/
def ingresosPeriodo (movs : List MovFin) (fecha_inicio fecha_fin : Int) :
    Rat :=
  ((movs.filter (fun r =>
      r.tipo == TipoMov.ingreso && enRango fecha_inicio fecha_fin r.fecha)).map
    (fun r => r.monto)).sum

/-- Total expense of a period following the words of the spec: the sum of
FinancialMovement amounts with type expense inside the range. -/
def egresosPeriodo (movs : List MovFin) (fecha_inicio fecha_fin : Int) :
    Rat :=
  ((movs.filter (fun r =>
      r.tipo == TipoMov.egreso && enRango fecha_inicio fecha_fin r.fecha)).map
    (fun r => r.monto)).sum

/-- Row of produccion_diaria as inserted by
ProduccionRepository.registrar_produccion (`src/data/models.py:30-37`). -/
structure ProdRow where
  fecha : Int
  hora : String
  tipo_c : Int
  tipo_b : Int
  tipo_a : Int
  tipo_aa : Int
  tipo_aaa : Int
  tipo_jumbo : Int
  observaciones : Option String
deriving DecidableEq, Repr

/-- Sum of the six per-category counts of one produccion_diaria row. -/
def ProdRow.totalHuevos (r : ProdRow) : Int :=
  r.tipo_c + r.tipo_b + r.tipo_a + r.tipo_aa + r.tipo_aaa + r.tipo_jumbo

/-- ProduccionRepository.registrar_produccion (`src/data/models.py:16-37`):
a single INSERT into produccion_diaria with no validation of the counts;
returns the id of the created row (sqlite lastrowid, modelled as the new
length). -/
def registrar_produccion (tabla : List ProdRow) (fecha : Int) (hora : String)
    (tipo_c tipo_b tipo_a tipo_aa tipo_aaa tipo_jumbo : Int)
    (observaciones : Option String) : List ProdRow × Nat :=
  (tabla ++ [⟨fecha, hora, tipo_c, tipo_b, tipo_a, tipo_aa, tipo_aaa,
      tipo_jumbo, observaciones⟩],
   tabla.length + 1)

/-- Production form handler of ProduccionModule._render_registro_produccion
(`src/modules/mod1.py:107-133`): the repository is called only when the
total of the six counts is positive; otherwise an error message is shown and
nothing is inserted. -/
def procesar_registro_produccion (tabla : List ProdRow) (fecha : Int)
    (hora : String) (tipo_c tipo_b tipo_a tipo_aa tipo_aaa tipo_jumbo : Int)
    (observaciones : Option String) : List ProdRow × Option Nat :=
  if 0 < tipo_c + tipo_b + tipo_a + tipo_aa + tipo_aaa + tipo_jumbo then
    let r := registrar_produccion tabla fecha hora tipo_c tipo_b tipo_a
      tipo_aa tipo_aaa tipo_jumbo observaciones
    (r.1, some r.2)
  else (tabla, none)

/-- ASCII lower-casing of one character, as sqlite LIKE applies it. -/
def minusculaChar (c : Char) : Char :=
  if 65 ≤ c.toNat ∧ c.toNat ≤ 90 then Char.ofNat (c.toNat + 32) else c

/-- Whether the first character list starts the second one. -/
def esPrefijo : List Char → List Char → Bool
  | [], _ => true
  | _ :: _, [] => false
  | a :: as, b :: bs => a == b && esPrefijo as bs

/-- Whether the first character list occurs inside the second one. -/
def contieneLista (pat : List Char) : List Char → Bool
  | [] => esPrefijo pat []
  | b :: bs => esPrefijo pat (b :: bs) || contieneLista pat bs

/-- The sqlite predicate categoria LIKE (a pattern enclosed in percent
signs): LIKE is case-insensitive for ASCII, so the column matches when its
lower-cased text contains the lower-cased pattern as a substring. -/
def likeContiene (pat s : String) : Bool :=
  contieneLista pat.data (s.data.map minusculaChar)

/-- ReportesRepository.calcular_costo_produccion_por_huevo
(`src/data/models.py:663-691`): the sum of egreso movements of the period
whose categoria matches LIKE with Alimento or trabajador, divided by the
total eggs of produccion_diaria in the period; when that total is not
positive the division is skipped and 0 is returned.  A NULL aggregate (no
matching row) is replaced by 0 by the Python falsiness checks. -/
def calcular_costo_produccion_por_huevo (movs : List MovFin)
    (prod : List ProdRow) (fecha_inicio fecha_fin : Int) : Rat :=
  let eg := movs.filter (fun r =>
    r.tipo == TipoMov.egreso && enRango fecha_inicio fecha_fin r.fecha &&
      (likeContiene "alimento" r.categoria ||
        likeContiene "trabajador" r.categoria))
  let total_egresos : Rat :=
    if eg.isEmpty then 0 else (eg.map (fun r => r.monto)).sum
  let pr := prod.filter (fun r => enRango fecha_inicio fecha_fin r.fecha)
  let total_producido : Int :=
    if pr.isEmpty then 0 else (pr.map ProdRow.totalHuevos).sum
  if 0 < total_producido then total_egresos / (total_producido : Rat) else 0

/-- Cost per egg following the words of the claim: total of expense movements of
the range whose category is tagged feed or worker, divided by the total
eggs produced in the range, and exactly 0 when that total is zero. -/
def costoPorHuevoSpec (movs : List MovFin) (prod : List ProdRow)
    (fecha_inicio fecha_fin : Int) : Rat :=
  let totalProd : Int :=
    ((prod.filter (fun r => enRango fecha_inicio fecha_fin r.fecha)).map
      ProdRow.totalHuevos).sum
  let gastos : Rat :=
    ((movs.filter (fun r =>
        r.tipo == TipoMov.egreso && enRango fecha_inicio fecha_fin r.fecha &&
          (likeContiene "alimento" r.categoria ||
            likeContiene "trabajador" r.categoria))).map
      (fun r => r.monto)).sum
  if totalProd = 0 then 0 else gastos / (totalProd : Rat)

/-- Concrete completed order used by concrete inputs on the pedido path. -/
def pedidoCompletado : Pedido :=
  ⟨7, 1, 0, "08:00:00", ⟨1, 0, 0, 0, 0, 0⟩, 30, Estado.completado, none⟩

/-- Concrete pending order used by witnesses on the dispatch path. -/
def pedidoPendiente : Pedido :=
  ⟨3, 1, 0, "09:00:00", ⟨2, 1, 0, 0, 0, 0⟩, 90, Estado.pendiente, none⟩

/-- Concrete sales state used by witnesses on the dispatch path. -/
def ventasEjemplo : VentasState :=
  { pedidos := [pedidoPendiente],
    stock := ⟨100, 50, 0, 0, 0, 0⟩,
    movimientos := [],
    despachos := [] }

/-- Concrete basket counts used by witnesses on the dispatch path. -/
def canTestigo : Cats := ⟨2, 1, 0, 0, 0, 0⟩

/-- Concrete price table (with a corrupt pair of active rows) used by
witnesses on the price path. -/
def preciosEjemplo : List Precio :=
  [⟨0, 1, 1, 1, 1, 1, 1, true⟩, ⟨1, 2, 2, 2, 2, 2, 2, true⟩]

/-- Concrete movement ledger used by witnesses on the balance path. -/
def movsEjemplo : List MovFin :=
  [⟨1, TipoMov.ingreso, "Venta de huevos", 100⟩,
   ⟨2, TipoMov.egreso, "Alimento", 40⟩]

/-- Concrete expense ledger used by witnesses on the cost-per-egg path. -/
def movsCosto : List MovFin :=
  [⟨3, TipoMov.egreso, "Alimento concentrado", 500⟩]

/-- Concrete production table used by witnesses on the cost-per-egg
path. -/
def prodEjemplo : List ProdRow :=
  [⟨3, "06:00:00", 10, 0, 0, 0, 0, 0, none⟩]

/- ===================== theorems ===================== -/

/-- Claim C1: through the loss branch of the stock-adjustment handler, a
call with kind merma and non-negative per-category magnitudes (not all
zero) negates the magnitudes before applying them: the stock_huevos row
decreases by each magnitude, and the persisted ajustes_stock_huevos row
stores the negated deltas (tipo_c = -magnitude, and so on). -/
theorem ajuste_merma_niega_magnitudes (s : HuevosState) (m : Cats)
    (motivo : Option String)
    (hc : 0 ≤ m.c) (hb : 0 ≤ m.b) (ha : 0 ≤ m.a) (haa : 0 ≤ m.aa)
    (haaa : 0 ≤ m.aaa) (hj : 0 ≤ m.jumbo) (hnz : m.total ≠ 0) :
    (aplicar_ajuste_stock_huevos s "merma" m motivo true true).stock.c
        = s.stock.c - m.c ∧
    (aplicar_ajuste_stock_huevos s "merma" m motivo true true).stock.b
        = s.stock.b - m.b ∧
    (aplicar_ajuste_stock_huevos s "merma" m motivo true true).stock.a
        = s.stock.a - m.a ∧
    (aplicar_ajuste_stock_huevos s "merma" m motivo true true).stock.aa
        = s.stock.aa - m.aa ∧
    (aplicar_ajuste_stock_huevos s "merma" m motivo true true).stock.aaa
        = s.stock.aaa - m.aaa ∧
    (aplicar_ajuste_stock_huevos s "merma" m motivo true true).stock.jumbo
        = s.stock.jumbo - m.jumbo ∧
    (aplicar_ajuste_stock_huevos s "merma" m motivo true true).ajustes
        = s.ajustes ++
          [⟨"merma", -m.c, -m.b, -m.a, -m.aa, -m.aaa, -m.jumbo, motivo⟩] := by
  simp only [aplicar_ajuste_stock_huevos, if_pos (Or.inl hnz),
    registrar_ajuste_huevos, ajustar_stock_manual, Cats.add, Cats.neg,
    if_pos rfl, if_true]
  refine ⟨by ring, by ring, by ring, by ring, by ring, by ring, by trivial⟩

/-- Claim C1 witness: the spec scenario, a merma of 5 category-C eggs. -/
theorem ajuste_merma_niega_magnitudes_testigo :
    ((0:Int) ≤ 5 ∧ Cats.total ⟨5, 0, 0, 0, 0, 0⟩ ≠ 0) ∧
    ((aplicar_ajuste_stock_huevos huevosEjemplo "merma" ⟨5, 0, 0, 0, 0, 0⟩
        none true true).stock.c = huevosEjemplo.stock.c - 5 ∧
     (aplicar_ajuste_stock_huevos huevosEjemplo "merma" ⟨5, 0, 0, 0, 0, 0⟩
        none true true).ajustes
       = huevosEjemplo.ajustes ++ [⟨"merma", -5, 0, 0, 0, 0, 0, none⟩]) := by
  have h := ajuste_merma_niega_magnitudes huevosEjemplo ⟨5, 0, 0, 0, 0, 0⟩
    none (by decide) (by decide) (by decide) (by decide) (by decide)
    (by decide) (by decide)
  refine ⟨⟨by decide, by decide⟩, h.1, ?_⟩
  have h7 := h.2.2.2.2.2.2
  simpa using h7

/-- Claim C2 counterexample: registrar_ajuste_huevos is two separate
transactions.  With the UPDATE committed and the history INSERT failing, the
operation errors out yet leaves the stock mutated and no audit row: partial
state persists, refuting the all-or-nothing claim at this concrete input. -/
theorem ajuste_no_atomico_contraejemplo :
    registrar_ajuste_huevos huevosEjemplo "merma" ⟨-5, 0, 0, 0, 0, 0⟩ none
        true false
      = TxResult.err { stock := ⟨15, 10, 10, 10, 10, 10⟩, ajustes := [] } ∧
    ({ stock := ⟨15, 10, 10, 10, 10, 10⟩, ajustes := [] } : HuevosState)
      ≠ huevosEjemplo := by
  decide

/-- Claim C2 (amended): every single SQL statement is atomic on its own
connection, but the two-statement operations are not one transaction.  When
both statements succeed both effects persist; when the first fails nothing
persists; when the second fails the aggregate mutation stays committed with
no event row, and the underlying exception propagates (the code defines no
ConsistencyViolation type). -/
theorem transacciones_por_sentencia (s : HuevosState) (t : InsumosState)
    (tipo : String) (d : Cats) (motivo motivoIns : Option String)
    (insumo_id : Nat) (cantidad : Rat) (b : Bool) :
    registrar_ajuste_huevos s tipo d motivo true true
      = TxResult.ok
          { stock := s.stock.add d,
            ajustes := s.ajustes ++
              [⟨tipo, d.c, d.b, d.a, d.aa, d.aaa, d.jumbo, motivo⟩] }
          (s.ajustes.length + 1) ∧
    registrar_ajuste_huevos s tipo d motivo false b = TxResult.err s ∧
    registrar_ajuste_huevos s tipo d motivo true false
      = TxResult.err { stock := s.stock.add d, ajustes := s.ajustes } ∧
    registrar_consumo_insumo t insumo_id cantidad motivoIns true true
      = TxResult.ok
          { stock := descontarInsumo t.stock insumo_id cantidad,
            movimientos := t.movimientos ++
              [⟨insumo_id, "salida", cantidad, motivoIns⟩] }
          (t.movimientos.length + 1) ∧
    registrar_consumo_insumo t insumo_id cantidad motivoIns false b
      = TxResult.err t ∧
    registrar_consumo_insumo t insumo_id cantidad motivoIns true false
      = TxResult.err
          { stock := descontarInsumo t.stock insumo_id cantidad,
            movimientos := t.movimientos } :=
  ⟨rfl, rfl, rfl, rfl, rfl, rfl⟩

/-- Claim C10: ajustar_stock_insumo overwrites the matching stock_insumos
row with nueva_cantidad itself (equal to its absolute value for the
non-negative quantities the form supplies), independently of the previous
quantity — it is not an increment — and writes no movimientos_insumos
row. -/
theorem ajustar_stock_insumo_sobrescribe (s : InsumosState)
    (insumo_id : Nat) (q : Rat) (motivo : String) (hq : 0 ≤ q) :
    (∀ r ∈ (ajustar_stock_insumo s insumo_id q motivo).stock,
        r.insumo_id = insumo_id →
          r.cantidad_actual = q ∧ r.cantidad_actual = |q|) ∧
    (∀ r ∈ (ajustar_stock_insumo s insumo_id q motivo).stock,
        r.insumo_id ≠ insumo_id → r ∈ s.stock) ∧
    (∀ (q0 : Rat) (motivo0 : String),
        ajustar_stock_insumo (ajustar_stock_insumo s insumo_id q0 motivo0)
            insumo_id q motivo
          = ajustar_stock_insumo s insumo_id q motivo) ∧
    (ajustar_stock_insumo s insumo_id q motivo).movimientos
      = s.movimientos := by
  refine ⟨?_, ?_, ?_, rfl⟩
  · intro r hr hid
    rcases List.mem_map.1 hr with ⟨r0, _, heq⟩
    by_cases h0 : r0.insumo_id = insumo_id
    · subst heq
      simp only [h0, if_pos rfl] at hid ⊢
      exact ⟨rfl, (abs_of_nonneg hq).symm⟩
    · subst heq
      simp only [if_neg h0] at hid
      exact absurd hid h0
  · intro r hr hid
    rcases List.mem_map.1 hr with ⟨r0, hr0, heq⟩
    by_cases h0 : r0.insumo_id = insumo_id
    · subst heq
      simp only [h0, if_pos rfl] at hid
      exact absurd rfl hid
    · subst heq
      simpa [if_neg h0] using hr0
  · intro q0 motivo0
    simp only [ajustar_stock_insumo, List.map_map]
    refine congrArg (fun st => InsumosState.mk st s.movimientos) ?_
    refine List.map_congr_left ?_
    intro r _
    by_cases h0 : r.insumo_id = insumo_id <;> simp [Function.comp, h0]

/-- Claim C10 witness: overwrite supply 1 with quantity 3 in a concrete
state. -/
theorem ajustar_stock_insumo_sobrescribe_testigo :
    ((0:Rat) ≤ 3) ∧
    ((∀ r ∈ (ajustar_stock_insumo insumosEjemplo 1 3 "Ajuste manual").stock,
        r.insumo_id = 1 →
          r.cantidad_actual = 3 ∧ r.cantidad_actual = |(3:Rat)|) ∧
     (∀ r ∈ (ajustar_stock_insumo insumosEjemplo 1 3 "Ajuste manual").stock,
        r.insumo_id ≠ 1 → r ∈ insumosEjemplo.stock) ∧
     (∀ (q0 : Rat) (motivo0 : String),
        ajustar_stock_insumo (ajustar_stock_insumo insumosEjemplo 1 q0 motivo0)
            1 3 "Ajuste manual"
          = ajustar_stock_insumo insumosEjemplo 1 3 "Ajuste manual") ∧
     (ajustar_stock_insumo insumosEjemplo 1 3 "Ajuste manual").movimientos
       = insumosEjemplo.movimientos) :=
  ⟨by norm_num,
   ajustar_stock_insumo_sobrescribe insumosEjemplo 1 3 "Ajuste manual"
     (by norm_num)⟩

/-- Marking the pedido of a given id completado commutes with looking that
id up: helper for the dispatch contract. -/
theorem find?_map_completar (l : List Pedido) (pid : Nat) :
    (l.map (fun q =>
        if q.id = pid then { q with estado := Estado.completado } else q)).find?
        (fun q => q.id == pid)
      = (l.find? (fun q => q.id == pid)).map
          (fun q => { q with estado := Estado.completado }) := by
  induction l with
  | nil => rfl
  | cons hd tl ih =>
    by_cases h : hd.id = pid
    · simp [List.find?_cons, h, -List.find?_map]
    · simp [List.find?_cons, h, ih, -List.find?_map]

/-- Claim C3: dispatching with basket counts decrements the egg stock by
exactly 30 times those counts per category and marks the referenced order
completado; dispatching an order that is not pendiente (in particular an
already completed one) fails with StateError, so the successor state of a
successful dispatch rejects every second dispatch of the same order. -/
theorem despachar_pedido_contrato (s : VentasState) (pedido_id : Nat)
    (fecha : Int) (hora : String) (can : Cats) (obs : Option String)
    (p : Pedido)
    (hp : s.pedidos.find? (fun q => q.id == pedido_id) = some p) :
    (p.estado ≠ Estado.pendiente →
      despachar_pedido s pedido_id fecha hora can obs
        = Except.error RepoError.stateError) ∧
    (p.estado = Estado.pendiente →
      ∃ s2, despachar_pedido s pedido_id fecha hora can obs = Except.ok s2 ∧
        s2.stock.c = s.stock.c - 30 * can.c ∧
        s2.stock.b = s.stock.b - 30 * can.b ∧
        s2.stock.a = s.stock.a - 30 * can.a ∧
        s2.stock.aa = s.stock.aa - 30 * can.aa ∧
        s2.stock.aaa = s.stock.aaa - 30 * can.aaa ∧
        s2.stock.jumbo = s.stock.jumbo - 30 * can.jumbo ∧
        s2.pedidos.find? (fun q => q.id == pedido_id)
          = some { p with estado := Estado.completado } ∧
        ∀ (fecha2 : Int) (hora2 : String) (can2 : Cats)
            (obs2 : Option String),
          despachar_pedido s2 pedido_id fecha2 hora2 can2 obs2
            = Except.error RepoError.stateError) := by
  constructor
  · intro hne
    simp [despachar_pedido, hp, hne]
  · intro hpe
    have hstep : despachar_pedido s pedido_id fecha hora can obs
        = Except.ok
            (VentasState.mk
              (s.pedidos.map (fun q =>
                if q.id = pedido_id then { q with estado := Estado.completado }
                else q))
              (s.stock.sub (can.scale 30))
              (s.movimientos ++
                [⟨fecha, TipoMov.ingreso, "Venta de huevos", p.precio_total⟩])
              (s.despachos ++ [⟨pedido_id, fecha, hora, can, obs⟩])) := by
      simp [despachar_pedido, hp, hpe]
    refine ⟨_, hstep, rfl, rfl, rfl, rfl, rfl, rfl, ?_, ?_⟩
    · rw [find?_map_completar, hp]
      rfl
    · intro fecha2 hora2 can2 obs2
      simp [despachar_pedido, find?_map_completar, hp, -List.find?_map]

/-- Claim C3 witness: a concrete pending order of 2 C-baskets and 1
B-basket dispatched once, with the second dispatch rejected. -/
theorem despachar_pedido_contrato_testigo :
    (ventasEjemplo.pedidos.find? (fun q => q.id == 3) = some pedidoPendiente) ∧
    ((pedidoPendiente.estado ≠ Estado.pendiente →
        despachar_pedido ventasEjemplo 3 5 "10:00:00" canTestigo none
          = Except.error RepoError.stateError) ∧
     (pedidoPendiente.estado = Estado.pendiente →
        ∃ s2, despachar_pedido ventasEjemplo 3 5 "10:00:00" canTestigo none
            = Except.ok s2 ∧
          s2.stock.c = ventasEjemplo.stock.c - 30 * canTestigo.c ∧
          s2.stock.b = ventasEjemplo.stock.b - 30 * canTestigo.b ∧
          s2.stock.a = ventasEjemplo.stock.a - 30 * canTestigo.a ∧
          s2.stock.aa = ventasEjemplo.stock.aa - 30 * canTestigo.aa ∧
          s2.stock.aaa = ventasEjemplo.stock.aaa - 30 * canTestigo.aaa ∧
          s2.stock.jumbo = ventasEjemplo.stock.jumbo - 30 * canTestigo.jumbo ∧
          s2.pedidos.find? (fun q => q.id == 3)
            = some { pedidoPendiente with estado := Estado.completado } ∧
          ∀ (fecha2 : Int) (hora2 : String) (can2 : Cats)
              (obs2 : Option String),
            despachar_pedido s2 3 fecha2 hora2 can2 obs2
              = Except.error RepoError.stateError)) :=
  ⟨by decide,
   despachar_pedido_contrato ventasEjemplo 3 5 "10:00:00" canTestigo none
     pedidoPendiente (by decide)⟩

/-- Claim C5 counterexample: the repository operation registrar_produccion
called with all six counts zero does not fail: it returns id 1 and creates
an all-zero produccion_diaria row. -/
theorem registrar_produccion_ceros_contraejemplo :
    (registrar_produccion [] 0 "06:00:00" 0 0 0 0 0 0 none).1
      = [⟨0, "06:00:00", 0, 0, 0, 0, 0, 0, none⟩] ∧
    (registrar_produccion [] 0 "06:00:00" 0 0 0 0 0 0 none).2 = 1 := by
  decide

/-- Claim C5 (amended): the all-zero rejection lives in the presentation
layer: the production form handler refuses to call the repository when the
six counts sum to zero, leaving the table unchanged and returning no id,
while the repository operation itself validates nothing and inserts an
all-zero row, returning its id (the code defines no ValidationError
type). -/
theorem produccion_ceros_rechazo_en_formulario (tabla : List ProdRow)
    (fecha : Int) (hora : String) (observaciones : Option String) :
    procesar_registro_produccion tabla fecha hora 0 0 0 0 0 0 observaciones
      = (tabla, none) ∧
    (registrar_produccion tabla fecha hora 0 0 0 0 0 0 observaciones).1
      = tabla ++ [⟨fecha, hora, 0, 0, 0, 0, 0, 0, observaciones⟩] ∧
    (registrar_produccion tabla fecha hora 0 0 0 0 0 0 observaciones).2
      = tabla.length + 1 := by
  refine ⟨?_, rfl, rfl⟩
  norm_num [procesar_registro_produccion]

/-- Claim C6 counterexample: cancelar_pedido moves a completado order to
cancelado — the WHERE clause has no pending-only condition, refuting the
claim at this concrete input. -/
theorem cancelar_pedido_contraejemplo :
    pedidoCompletado.estado = Estado.completado ∧
    cancelar_pedido [pedidoCompletado] 7
      = [⟨7, 1, 0, "08:00:00", ⟨1, 0, 0, 0, 0, 0⟩, 30, Estado.cancelado,
          none⟩] := by
  decide

/-- Claim C6 (amended): cancelar_pedido sets estado to cancelado for the
matching order unconditionally, whatever its current status (including
completado); other orders are untouched, and the operation is idempotent,
so on an already-cancelled order it is a harmless no-op.  The pending-only
restriction is enforced only by the UI, which offers cancellation solely on
the pending list. -/
theorem cancelar_pedido_incondicional (pedidos : List Pedido) (pid : Nat) :
    (∀ p ∈ pedidos, p.id = pid →
        { p with estado := Estado.cancelado } ∈ cancelar_pedido pedidos pid) ∧
    (∀ p ∈ pedidos, p.id ≠ pid → p ∈ cancelar_pedido pedidos pid) ∧
    (∀ p ∈ cancelar_pedido pedidos pid, p.id = pid →
        p.estado = Estado.cancelado) ∧
    cancelar_pedido (cancelar_pedido pedidos pid) pid
      = cancelar_pedido pedidos pid := by
  refine ⟨?_, ?_, ?_, ?_⟩
  · intro p hp hid
    have h1 : (fun q =>
        if q.id = pid then { q with estado := Estado.cancelado } else q) p
          = { p with estado := Estado.cancelado } := by
      simp [hid]
    exact h1 ▸ List.mem_map_of_mem _ hp
  · intro p hp hid
    have h1 : (fun q =>
        if q.id = pid then { q with estado := Estado.cancelado } else q) p
          = p := by
      simp [hid]
    exact h1 ▸ List.mem_map_of_mem _ hp
  · intro p hp hid
    rcases List.mem_map.1 hp with ⟨q, _, heq⟩
    by_cases h0 : q.id = pid
    · subst heq
      simp [h0]
    · subst heq
      simp only [if_neg h0] at hid
      exact absurd hid h0
  · simp only [cancelar_pedido, List.map_map]
    refine congrArg (List.map · pedidos) ?_
    funext q
    by_cases h0 : q.id = pid <;> simp [Function.comp, h0]

/-- Claim C6 witness: the concrete completed order is indeed moved to
cancelado by cancelar_pedido. -/
theorem cancelar_pedido_incondicional_testigo :
    (pedidoCompletado ∈ [pedidoCompletado] ∧ pedidoCompletado.id = 7) ∧
    { pedidoCompletado with estado := Estado.cancelado }
      ∈ cancelar_pedido [pedidoCompletado] 7 :=
  ⟨⟨by decide, by decide⟩,
   (cancelar_pedido_incondicional [pedidoCompletado] 7).1 pedidoCompletado
     (by decide) (by decide)⟩

/-- Creating one price schedule always leaves exactly one active row:
helper for the uniqueness invariant. -/
theorem countP_crear_nuevo_precio (precios : List Precio)
    (args : PrecioArgs) :
    (crear_nuevo_precio precios args).countP (fun r => r.activo) = 1 := by
  simp [crear_nuevo_precio, List.countP_append, List.countP_map,
    Function.comp, List.countP_cons]

/-- Claim C7: after any non-empty sequence of price-schedule creations,
exactly one precios_huevos row is active, regardless of the starting
table. -/
theorem precio_activo_unico (precios : List Precio)
    (creaciones : List PrecioArgs) (h : creaciones ≠ []) :
    (creaciones.foldl crear_nuevo_precio precios).countP
        (fun r => r.activo) = 1 := by
  induction creaciones generalizing precios with
  | nil => exact absurd rfl h
  | cons a as ih =>
    rw [List.foldl_cons]
    cases as with
    | nil =>
      rw [List.foldl_nil]
      exact countP_crear_nuevo_precio precios a
    | cons b bs =>
      exact ih (crear_nuevo_precio precios a) (List.cons_ne_nil b bs)

/-- Claim C7 witness: one creation on a table that even starts with two
active rows ends with exactly one active row. -/
theorem precio_activo_unico_testigo :
    ([⟨0, 1, 1, 1, 1, 1, 1⟩] : List PrecioArgs) ≠ [] ∧
    (([⟨0, 1, 1, 1, 1, 1, 1⟩] : List PrecioArgs).foldl crear_nuevo_precio
        preciosEjemplo).countP (fun r => r.activo) = 1 :=
  ⟨by decide,
   precio_activo_unico preciosEjemplo [⟨0, 1, 1, 1, 1, 1, 1⟩] (by decide)⟩

/-- Restricting first to the period and then reading income amounts through
the CASE expression agrees with filtering by type and period: helper for
the balance query. -/
theorem suma_ingresos_filtrada (fi ff : Int) (l : List MovFin) :
    ((l.filter (fun r =>
        r.tipo == TipoMov.ingreso && enRango fi ff r.fecha)).map
      (fun r => r.monto)).sum
      = ((l.filter (fun r => enRango fi ff r.fecha)).map
          (fun r => if r.tipo = TipoMov.ingreso then r.monto else 0)).sum := by
  induction l with
  | nil => rfl
  | cons hd tl ih =>
    cases hr : enRango fi ff hd.fecha with
    | false => simp [List.filter_cons, hr, ih]
    | true => cases htipo : hd.tipo <;> simp [List.filter_cons, hr, htipo, ih]

/-- Expense counterpart of the previous helper. -/
theorem suma_egresos_filtrada (fi ff : Int) (l : List MovFin) :
    ((l.filter (fun r =>
        r.tipo == TipoMov.egreso && enRango fi ff r.fecha)).map
      (fun r => r.monto)).sum
      = ((l.filter (fun r => enRango fi ff r.fecha)).map
          (fun r => if r.tipo = TipoMov.egreso then r.monto else 0)).sum := by
  induction l with
  | nil => rfl
  | cons hd tl ih =>
    cases hr : enRango fi ff hd.fecha with
    | false => simp [List.filter_cons, hr, ih]
    | true => cases htipo : hd.tipo <;> simp [List.filter_cons, hr, htipo, ih]

/-- The signed CASE sum of the balance column splits into income minus
expense, because every movimientos_financieros row is ingreso or egreso. -/
theorem suma_balance_filtrada (l : List MovFin) :
    (l.map (fun r =>
        if r.tipo = TipoMov.ingreso then r.monto else -r.monto)).sum
      = (l.map (fun r =>
          if r.tipo = TipoMov.ingreso then r.monto else 0)).sum
        - (l.map (fun r =>
            if r.tipo = TipoMov.egreso then r.monto else 0)).sum := by
  induction l with
  | nil => simp
  | cons hd tl ih =>
    cases htipo : hd.tipo <;> simp [htipo, ih] <;> ring

/-- Claim C4 counterexample: over a range with no movements the balance
query returns NULL totals, not zeroed ones — the balance value is None,
not 0. -/
theorem balance_vacio_contraejemplo :
    (obtener_balance_periodo [] 0 0).balance = none ∧
    (obtener_balance_periodo [] 0 0).balance ≠ some 0 := by
  decide

/-- Claim C4 (amended): for a range containing at least one movement the
report returns Σincome, Σexpense and balance = Σincome − Σexpense; for a
range with no movements the query raises no error and still returns one
row, but its three SUM aggregates are NULL (None), not 0. -/
theorem balance_periodo_contrato (movs : List MovFin) (fi ff : Int) :
    (movs.filter (fun r => enRango fi ff r.fecha) ≠ [] →
      obtener_balance_periodo movs fi ff
        = ⟨some (ingresosPeriodo movs fi ff),
           some (egresosPeriodo movs fi ff),
           some (ingresosPeriodo movs fi ff - egresosPeriodo movs fi ff)⟩) ∧
    (movs.filter (fun r => enRango fi ff r.fecha) = [] →
      obtener_balance_periodo movs fi ff = ⟨none, none, none⟩) := by
  constructor
  · intro hne
    have hie : (movs.filter (fun r => enRango fi ff r.fecha)).isEmpty
        = false := by
      cases hcase : (movs.filter (fun r => enRango fi ff r.fecha)) with
      | nil => exact absurd hcase hne
      | cons x xs => simp [hcase]
    have h1 := suma_ingresos_filtrada fi ff movs
    have h2 := suma_egresos_filtrada fi ff movs
    have h3 := suma_balance_filtrada
      (movs.filter (fun r => enRango fi ff r.fecha))
    simp only [obtener_balance_periodo, hie, Bool.false_eq_true, if_false,
      ingresosPeriodo, egresosPeriodo]
    rw [h1, h2, h3]
  · intro he
    simp [obtener_balance_periodo, he]

/-- Claim C4 witness: a two-movement ledger over an inhabited range, and
the empty ledger over the same range. -/
theorem balance_periodo_contrato_testigo :
    (movsEjemplo.filter (fun r => enRango 0 10 r.fecha) ≠ [] ∧
      obtener_balance_periodo movsEjemplo 0 10
        = ⟨some (ingresosPeriodo movsEjemplo 0 10),
           some (egresosPeriodo movsEjemplo 0 10),
           some (ingresosPeriodo movsEjemplo 0 10
                  - egresosPeriodo movsEjemplo 0 10)⟩) ∧
    (([] : List MovFin).filter (fun r => enRango 0 10 r.fecha) = [] ∧
      obtener_balance_periodo [] 0 10 = ⟨none, none, none⟩) :=
  ⟨⟨by decide, (balance_periodo_contrato movsEjemplo 0 10).1 (by decide)⟩,
   ⟨rfl, (balance_periodo_contrato [] 0 10).2 rfl⟩⟩

/-- Collapsing the Python falsiness guard on the expense aggregate: helper
for the cost-per-egg report. -/
theorem total_egresos_sin_guardia (l : List MovFin) :
    (if l.isEmpty then (0:Rat) else (l.map (fun r => r.monto)).sum)
      = (l.map (fun r => r.monto)).sum := by
  cases l <;> simp

/-- Collapsing the Python falsiness guard on the production aggregate:
helper for the cost-per-egg report. -/
theorem total_producido_sin_guardia (l : List ProdRow) :
    (if l.isEmpty then (0:Int) else (l.map ProdRow.totalHuevos).sum)
      = (l.map ProdRow.totalHuevos).sum := by
  cases l <;> simp

/-- Claim C8: with non-negative production counts, the cost-per-egg report
equals the total of expense movements of the range tagged Alimento or
trabajador divided by the total eggs produced in the range, and is exactly
0 when that production total is zero — the division is guarded and never
performed on zero. -/
theorem costo_por_huevo_correcto (movs : List MovFin) (prod : List ProdRow)
    (fi ff : Int)
    (h : ∀ r ∈ prod, 0 ≤ r.tipo_c ∧ 0 ≤ r.tipo_b ∧ 0 ≤ r.tipo_a ∧
        0 ≤ r.tipo_aa ∧ 0 ≤ r.tipo_aaa ∧ 0 ≤ r.tipo_jumbo) :
    calcular_costo_produccion_por_huevo movs prod fi ff
      = costoPorHuevoSpec movs prod fi ff := by
  have hnn : 0 ≤ ((prod.filter (fun r => enRango fi ff r.fecha)).map
      ProdRow.totalHuevos).sum := by
    apply List.sum_nonneg
    intro x hx
    rcases List.mem_map.1 hx with ⟨r, hr, rfl⟩
    have hr2 := h r (List.mem_of_mem_filter hr)
    unfold ProdRow.totalHuevos
    omega
  unfold calcular_costo_produccion_por_huevo costoPorHuevoSpec
  simp only [total_egresos_sin_guardia, total_producido_sin_guardia]
  by_cases h0 : ((prod.filter (fun r => enRango fi ff r.fecha)).map
      ProdRow.totalHuevos).sum = 0
  · simp [h0]
  · have hpos := lt_of_le_of_ne hnn (Ne.symm h0)
    simp [h0, hpos]

/-- Claim C8 witness: 500 of feed expense against 10 produced eggs. -/
theorem costo_por_huevo_correcto_testigo :
    (∀ r ∈ prodEjemplo, 0 ≤ r.tipo_c ∧ 0 ≤ r.tipo_b ∧ 0 ≤ r.tipo_a ∧
        0 ≤ r.tipo_aa ∧ 0 ≤ r.tipo_aaa ∧ 0 ≤ r.tipo_jumbo) ∧
    calcular_costo_produccion_por_huevo movsCosto prodEjemplo 0 10
      = costoPorHuevoSpec movsCosto prodEjemplo 0 10 :=
  ⟨by decide, costo_por_huevo_correcto movsCosto prodEjemplo 0 10 (by decide)⟩

/-- Claim C9: when no row matches, the single-entity reads return their
neutral defaults instead of raising: obtener_cliente, obtener_pedido,
obtener_stock_actual and obtener_precio_actual return the empty dict
(none), and obtener_poblacion_actual returns the dict whose
cantidad_gallinas is 0. -/
theorem lecturas_sin_filas_valor_neutro (clientes : List Cliente)
    (pedidos : List Pedido) (stockRows : List StockHuevosRow)
    (precios : List Precio) (cliente_id pedido_id : Nat) :
    ((∀ c ∈ clientes, c.id ≠ cliente_id) →
        obtener_cliente clientes cliente_id = none) ∧
    ((∀ p ∈ pedidos, p.id ≠ pedido_id) →
        obtener_pedido pedidos clientes pedido_id = none) ∧
    ((∀ r ∈ stockRows, r.id ≠ 1) → obtener_stock_actual stockRows = none) ∧
    ((∀ r ∈ precios, r.activo = false) →
        obtener_precio_actual precios = none) ∧
    (obtener_poblacion_actual [] = PoblacionActual.sinRegistros ∧
      PoblacionActual.cantidad_gallinas PoblacionActual.sinRegistros
        = 0) := by
  refine ⟨?_, ?_, ?_, ?_, rfl, rfl⟩
  · intro hno
    have hfil : clientes.filter (fun c => c.id == cliente_id) = [] := by
      rw [List.filter_eq_nil_iff]
      intro c hc
      simp [hno c hc]
    simp [obtener_cliente, hfil]
  · intro hno
    have hfil : pedidos.filter (fun p => p.id == pedido_id) = [] := by
      rw [List.filter_eq_nil_iff]
      intro p hp
      simp [hno p hp]
    simp [obtener_pedido, hfil]
  · intro hno
    have hfil : stockRows.filter (fun r => r.id == 1) = [] := by
      rw [List.filter_eq_nil_iff]
      intro r hr
      simp [hno r hr]
    simp [obtener_stock_actual, hfil]
  · intro hno
    have hfil : precios.filter (fun r => r.activo) = [] := by
      rw [List.filter_eq_nil_iff]
      intro r hr
      simp [hno r hr]
    simp [obtener_precio_actual, hfil]

/-- Claim C9 witness: all five reads on empty tables. -/
theorem lecturas_sin_filas_valor_neutro_testigo :
    ((∀ c ∈ ([] : List Cliente), c.id ≠ 9) ∧
     (∀ p ∈ ([] : List Pedido), p.id ≠ 9) ∧
     (∀ r ∈ ([] : List StockHuevosRow), r.id ≠ 1) ∧
     (∀ r ∈ ([] : List Precio), r.activo = false)) ∧
    (obtener_cliente [] 9 = none ∧
     obtener_pedido [] [] 9 = none ∧
     obtener_stock_actual [] = none ∧
     obtener_precio_actual [] = none ∧
     obtener_poblacion_actual [] = PoblacionActual.sinRegistros ∧
     PoblacionActual.cantidad_gallinas PoblacionActual.sinRegistros = 0) := by
  have h := lecturas_sin_filas_valor_neutro [] [] [] [] 9 9
  exact ⟨⟨by simp, by simp, by simp, by simp⟩,
    h.1 (by simp), h.2.1 (by simp), h.2.2.1 (by simp), h.2.2.2.1 (by simp),
    h.2.2.2.2.1, h.2.2.2.2.2⟩
